import Mathlib

/-!
Shallow embedding of the authentication core of the dream-interpreter
backend: the token utilities (`src/utils/auth.ts`), the auth/rate-limit
middleware (`src/middleware/auth.ts`), the user DAO (`src/dao/userDao.ts`)
and the response assembly of the auth routes (`src/routes/auth.ts`).

Times are unix timestamps; `Date.now()` values are milliseconds, JWT
timestamps are seconds, both modelled as `Nat`.  A JWT is modelled as its
decoded claim set together with the key it was signed with: verification
against a key succeeds exactly when the key equals the signing key, which
models an unforgeable HMAC signature.  A string that is not a well-formed
JWT at all is the `malformed` case.
-/

/-- Default of the `JWT_SECRET` environment variable (`auth.ts` line 6). -/
def JWT_SECRET : String := "luna-super-secret-key-change-in-production"

/-- Default of the `JWT_EXPIRES_IN` environment variable (`auth.ts` line 7). -/
def JWT_EXPIRES_IN : String := "7d"

/-- Default of the `JWT_REFRESH_SECRET` environment variable (`auth.ts` line 8). -/
def JWT_REFRESH_SECRET : String := "luna-refresh-secret-key-change-in-production"

/-- Default of the `JWT_REFRESH_EXPIRES_IN` environment variable (`auth.ts` line 9). -/
def JWT_REFRESH_EXPIRES_IN : String := "30d"

/-- The claim set of a well-formed signed JWT as used by this service:
the payload fields (`userId`, `email`), the registered claims stamped by
`jsonwebtoken` (`iat`, `exp`, and the optional `iss`/`aud`), and the
signing key, which stands for the token's HMAC signature. -/
structure SignedToken where
  userId : String
  email : String
  iat : Nat
  exp : Nat
  iss : Option String
  aud : Option String
  key : String
deriving DecidableEq, Repr

/-- A token string as seen by a verifier: either not a well-formed JWT at
all, or a well-formed signed token. -/
inductive Jwt where
  | malformed (raw : String)
  | signed (t : SignedToken)
deriving DecidableEq, Repr

/-- The decoded payload returned by verification (`models/User.ts`,
interface `JWTPayload`). -/
structure JWTPayload where
  userId : String
  email : String
  iat : Nat
  exp : Nat
deriving DecidableEq, Repr

/-- The call `jwt.sign(payload, secret, \x7b expiresIn \x7d)`: stamps
`iat` and `exp`; since no `issuer`/`audience` option is passed at the
signing sites of `auth.ts`, the produced token carries no `iss`/`aud`
claim. -/
def jwtSign (userId email secret : String) (now lifetime : Nat) : Jwt :=
  .signed { userId := userId, email := email, iat := now, exp := now + lifetime,
            iss := none, aud := none, key := secret }

/-- The call `jwt.verify(token, secret, \x7b issuer, audience \x7d)`:
throws (modelled as `none`) on a malformed token, a signature made with a
different key, a missing or mismatched `iss` or `aud` claim, or an
elapsed expiry; otherwise returns the decoded payload.  `jsonwebtoken`
rejects when the clock timestamp reaches `exp`, so validity requires
`now < exp`. -/
def jwtVerify (tk : Jwt) (secret issClaim audClaim : String) (now : Nat) :
    Option JWTPayload :=
  match tk with
  | .malformed _ => none
  | .signed t =>
    if t.key = secret ∧ t.iss = some issClaim ∧ t.aud = some audClaim ∧ now < t.exp then
      some { userId := t.userId, email := t.email, iat := t.iat, exp := t.exp }
    else none

/-- Access-token lifetime in seconds: the default spec `"7d"` as parsed
by the JWT library. -/
def ACCESS_LIFETIME_SECONDS : Nat := 7 * 24 * 60 * 60

/-- Refresh-token lifetime in seconds: the default spec `"30d"` as parsed
by the JWT library. -/
def REFRESH_LIFETIME_SECONDS : Nat := 30 * 24 * 60 * 60

/-- `AuthUtils.generateAccessToken` (`auth.ts` lines 30-34): signs the
payload with `JWT_SECRET` and the configured lifetime, passing no
issuer/audience option. -/
def generateAccessToken (userId email : String) (now : Nat) : Jwt :=
  jwtSign userId email JWT_SECRET now ACCESS_LIFETIME_SECONDS

/-- `AuthUtils.generateRefreshToken` (`auth.ts` lines 39-43): signs the
payload with `JWT_REFRESH_SECRET` and the refresh lifetime, passing no
issuer/audience option. -/
def generateRefreshToken (userId email : String) (now : Nat) : Jwt :=
  jwtSign userId email JWT_REFRESH_SECRET now REFRESH_LIFETIME_SECONDS

/-- `AuthUtils.verifyAccessToken` (`auth.ts` lines 48-58): verifies with
`JWT_SECRET`, requiring issuer `luna-api` and audience `luna-frontend`;
the catch-all returns `null`, modelled as `none`. -/
def verifyAccessToken (tk : Jwt) (now : Nat) : Option JWTPayload :=
  jwtVerify tk JWT_SECRET "luna-api" "luna-frontend" now

/-- `AuthUtils.verifyRefreshToken` (`auth.ts` lines 63-73): verifies with
`JWT_REFRESH_SECRET`, requiring issuer `luna-api` and audience
`luna-frontend`; the catch-all returns `null`, modelled as `none`. -/
def verifyRefreshToken (tk : Jwt) (now : Nat) : Option JWTPayload :=
  jwtVerify tk JWT_REFRESH_SECRET "luna-api" "luna-frontend" now

/-- JavaScript `String.prototype.split` with a single-character
separator, over the character list: every occurrence of the separator
starts a new (possibly empty) part, and the empty string yields one
empty part. -/
def splitOnChar (sep : Char) : List Char → List (List Char)
  | [] => [[]]
  | c :: rest =>
    match splitOnChar sep rest with
    | [] => if c = sep then [[], []] else [[c]]
    | w :: ws => if c = sep then [] :: w :: ws else (c :: w) :: ws

/-- The parts of `authorization.split(' ')`, as strings. -/
def splitParts (s : String) : List String :=
  (splitOnChar ' ' s.data).map List.asString

/-- `AuthUtils.extractTokenFromHeader` (`auth.ts` lines 78-85): `none`
models JavaScript `undefined`/`null`; the guard `if (!authorization)`
also rejects the empty string (falsy); then the header must split on
single spaces into exactly two parts, the first being `Bearer`. -/
def extractTokenFromHeader (authorization : Option String) : Option String :=
  match authorization with
  | none => none
  | some s =>
    if s = "" then none
    else
      match splitParts s with
      | [scheme, tok] => if scheme = "Bearer" then some tok else none
      | _ => none

/-- Value of a non-empty decimal digit string, as `parseInt` computes it
on the digit group matched by the regex in `getTokenExpiration`. -/
def digitsToNat (ds : List Char) : Nat :=
  ds.foldl (fun acc c => acc * 10 + (c.toNat - '0'.toNat)) 0

/-- The regex match `expiresIn.match(/^(\d+)([dhm])$/)` (`auth.ts`
line 94): succeeds exactly on a non-empty digit string followed by one
unit character `d`, `h` or `m`, returning the numeric magnitude and the
unit. -/
def parseExpiresIn (s : String) : Option (Nat × Char) :=
  match s.data.reverse with
  | [] => none
  | u :: revDigits =>
    let ds := revDigits.reverse
    if ds ≠ [] ∧ ds.all Char.isDigit = true ∧ (u = 'd' ∨ u = 'h' ∨ u = 'm') then
      some (digitsToNat ds, u)
    else none

/-- `AuthUtils.getTokenExpiration` (`auth.ts` lines 90-106): `now` is the
current unix time in seconds (`Math.floor(Date.now() / 1000)`, taken here
as a parameter); an unparsable spec falls back to seven days. -/
def getTokenExpiration (now : Nat) (expiresIn : String) : Nat :=
  match parseExpiresIn expiresIn with
  | none => now + 7 * 24 * 60 * 60
  | some (num, u) =>
    if u = 'd' then now + num * 24 * 60 * 60
    else if u = 'h' then now + num * 60 * 60
    else if u = 'm' then now + num * 60
    else now + 7 * 24 * 60 * 60

/-- The fixed punctuation class of the special-character rule in
`validatePassword` (`auth.ts` line 138). -/
def specialChars : List Char :=
  ['!', '@', '#', '$', '%', '^', '&', '*', '(', ')',
   ',', '.', '?', '"', ':', '{', '}', '|', '<', '>']

/-- Result record of `AuthUtils.validatePassword`. -/
structure PasswordValidation where
  isValid : Bool
  errors : List String
deriving DecidableEq, Repr

/-- `AuthUtils.validatePassword` (`auth.ts` lines 119-146): the five
rules are checked independently, each failed rule appending its message,
and validity is emptiness of the collected error list.  The character
classes `[A-Z]`, `[a-z]` and `\d` of the source regexes coincide with
`Char.isUpper`, `Char.isLower` and `Char.isDigit` on the ASCII range
those regexes match. -/
def validatePassword (password : String) : PasswordValidation :=
  let errors :=
    (if password.length < 8 then ["Password must be at least 8 characters long"] else [])
    ++ (if password.data.any Char.isUpper then []
        else ["Password must contain at least one uppercase letter"])
    ++ (if password.data.any Char.isLower then []
        else ["Password must contain at least one lowercase letter"])
    ++ (if password.data.any Char.isDigit then []
        else ["Password must contain at least one number"])
    ++ (if password.data.any (fun c => specialChars.contains c) then []
        else ["Password must contain at least one special character"])
  { isValid := errors.length == 0, errors := errors }

/-- `user.preferences` (`models/User.ts`). -/
structure UserPreferences where
  notifications : Bool
  shareInsights : Bool
  publicProfile : Bool
deriving DecidableEq, Repr

/-- `user.subscription` (`models/User.ts`); the plan and status unions
are modelled as strings. -/
structure UserSubscription where
  plan : String
  status : String
  expiresAt : Option Nat
deriving DecidableEq, Repr

/-- `user.stats` (`models/User.ts`); dates as unix milliseconds. -/
structure UserStats where
  totalDreams : Nat
  streakDays : Nat
  joinedAt : Nat
  lastLoginAt : Option Nat
deriving DecidableEq, Repr

/-- The stored user record (`models/User.ts`, interface `User`),
including the bcrypt `password` credential. -/
structure User where
  id : String
  email : String
  password : String
  firstName : String
  lastName : String
  isEmailVerified : Bool
  profilePicture : Option String
  dateOfBirth : Option Nat
  timezone : Option String
  dreamGoals : Option (List String)
  preferences : UserPreferences
  subscription : UserSubscription
  stats : UserStats
  createdAt : Nat
  updatedAt : Nat
deriving DecidableEq, Repr

/-- The TypeScript type `Omit<User, 'password'>`: every field of `User`
except the stored credential. -/
structure UserPublic where
  id : String
  email : String
  firstName : String
  lastName : String
  isEmailVerified : Bool
  profilePicture : Option String
  dateOfBirth : Option Nat
  timezone : Option String
  dreamGoals : Option (List String)
  preferences : UserPreferences
  subscription : UserSubscription
  stats : UserStats
  createdAt : Nat
  updatedAt : Nat
deriving DecidableEq, Repr

/-- The rest-destructuring `const \x7b password: _, ...userWithoutPassword \x7d = user`
used by the register, login, `/me` and profile handlers and by
`UserDao.getAllUsers`: keeps every field except `password`. -/
def stripPassword (user : User) : UserPublic :=
  { id := user.id, email := user.email, firstName := user.firstName,
    lastName := user.lastName, isEmailVerified := user.isEmailVerified,
    profilePicture := user.profilePicture, dateOfBirth := user.dateOfBirth,
    timezone := user.timezone, dreamGoals := user.dreamGoals,
    preferences := user.preferences, subscription := user.subscription,
    stats := user.stats, createdAt := user.createdAt, updatedAt := user.updatedAt }

/-- The `AuthResponse` value assembled by the register and login handlers
(`models/User.ts`, `routes/auth.ts`). -/
structure AuthResponse where
  user : UserPublic
  token : Jwt
  refreshToken : Jwt
  expiresIn : Nat
deriving DecidableEq, Repr

/-- Response assembly of `POST /register` (`routes/auth.ts` lines 83-94):
tokens for the created user, the user record without its password, and
the advisory expiry from the default lifetime. -/
def registerAuthResponse (user : User) (now : Nat) : AuthResponse :=
  { user := stripPassword user,
    token := generateAccessToken user.id user.email now,
    refreshToken := generateRefreshToken user.id user.email now,
    expiresIn := getTokenExpiration now JWT_EXPIRES_IN }

/-- Response assembly of `POST /login` (`routes/auth.ts` lines 155-168):
the advisory expiry spec depends on `rememberMe`; the user record is sent
without its password. -/
def loginAuthResponse (user : User) (rememberMe : Bool) (now : Nat) : AuthResponse :=
  let tokenExpiry := if rememberMe then "30d" else "7d"
  { user := stripPassword user,
    token := generateAccessToken user.id user.email now,
    refreshToken := generateRefreshToken user.id user.email now,
    expiresIn := getTokenExpiration now tokenExpiry }

/-- Response assembly of `GET /me` (`routes/auth.ts` lines 274-280): the
looked-up user record without its password. -/
def meResponseUser (user : User) : UserPublic :=
  stripPassword user

/-- `UserDao.getAllUsers` (`userDao.ts` lines 116-121): every stored user
with the password removed. -/
def getAllUsers (users : List User) : List UserPublic :=
  users.map stripPassword

/-- An entry of the rate limiter's `requestCounts` map
(`middleware/auth.ts` line 173): request count and window reset time in
unix milliseconds. -/
structure RateEntry where
  count : Nat
  resetTime : Nat
deriving DecidableEq, Repr

/-- The `requestCounts` map, keyed by client address. -/
abbrev RateMap := List (String × RateEntry)

/-- `Map.get` on `requestCounts`. -/
def mapGet : RateMap → String → Option RateEntry
  | [], _ => none
  | (k, v) :: rest, ip => if k = ip then some v else mapGet rest ip

/-- `Map.set` on `requestCounts`: replaces an existing binding for the
key, otherwise appends one. -/
def mapSet : RateMap → String → RateEntry → RateMap
  | [], ip, v => [(ip, v)]
  | (k, w) :: rest, ip, v =>
    if k = ip then (ip, v) :: rest else (k, w) :: mapSet rest ip v

/-- What one call of `rateLimit` sends on a reply: the HTTP status when a
body is sent (`429`), the `retryAfter` body field in seconds, and the
`X-RateLimit` headers that were set. -/
structure RateReply where
  status : Option Nat
  retryAfter : Option Nat
  headers : List (String × Nat)
deriving DecidableEq, Repr

/-- The update of the client's entry in `rateLimit` (`middleware/auth.ts`
lines 184-193): a missing entry or a current time strictly past the
stored reset time reinitializes the entry to count 1 with reset time
`now + windowMs`; otherwise the count increments within the live
window. -/
def nextEntry (old : Option RateEntry) (now windowMs : Nat) : RateEntry :=
  match old with
  | none => { count := 1, resetTime := now + windowMs }
  | some info =>
    if info.resetTime < now then { count := 1, resetTime := now + windowMs }
    else { count := info.count + 1, resetTime := info.resetTime }

/-- `rateLimit` (`middleware/auth.ts` lines 175-210) for one request from
`clientIp` at time `now` (milliseconds): updates the map, then either
replies `429` with `retryAfter = ceil((resetTime - now) / 1000)` — and
returns before any header is set — or sets the three `X-RateLimit`
headers (`Remaining` clipped at 0, `Reset` as `ceil(resetTime / 1000)`
unix seconds) and lets the request pass. -/
def rateLimit (m : RateMap) (clientIp : String) (now maxRequests windowMs : Nat) :
    RateMap × RateReply :=
  let info := nextEntry (mapGet m clientIp) now windowMs
  let m2 := mapSet m clientIp info
  if maxRequests < info.count then
    (m2, { status := some 429,
           retryAfter := some ((info.resetTime - now + 999) / 1000),
           headers := [] })
  else
    (m2, { status := none, retryAfter := none,
           headers := [("X-RateLimit-Limit", maxRequests),
                       ("X-RateLimit-Remaining", maxRequests - info.count),
                       ("X-RateLimit-Reset", (info.resetTime + 999) / 1000)] })

/-- Outcome of the `authenticateToken` middleware: either a sent error
reply (status, message, machine-readable code) or the identity attached
to the request. -/
inductive AuthOutcome where
  | err (status : Nat) (message : String) (code : String)
  | ok (userId email : String)
deriving DecidableEq, Repr

/-- `authenticateToken` (`middleware/auth.ts` lines 25-73).  `decode`
maps a token string to the JWT it denotes (the parsing the verifier
performs); `lookupUser` is `UserDao.findUserById`, whose promise may
reject (`Except.error`, caught by the surrounding try/catch as
`AUTH_FAILED`).  The guard `if (!token)` treats the empty string as a
missing token. -/
def authenticateToken (decode : String → Jwt)
    (lookupUser : String → Except Unit (Option User))
    (now : Nat) (authHeader : Option String) : AuthOutcome :=
  match extractTokenFromHeader authHeader with
  | none => .err 401 "Access token is required" "MISSING_TOKEN"
  | some tok =>
    if tok = "" then .err 401 "Access token is required" "MISSING_TOKEN"
    else
      match verifyAccessToken (decode tok) now with
      | none => .err 401 "Invalid or expired access token" "INVALID_TOKEN"
      | some payload =>
        match lookupUser payload.userId with
        | .error _ => .err 401 "Authentication failed" "AUTH_FAILED"
        | .ok none => .err 401 "User not found" "USER_NOT_FOUND"
        | .ok (some _) => .ok payload.userId payload.email

/-- A token that `verifyAccessToken` accepts at time `now`: well-formed,
signed with the access secret, carrying the service's issuer and
audience claims, and not yet expired. -/
def accessTokenValid (tk : Jwt) (now : Nat) : Prop :=
  ∃ t, tk = .signed t ∧ t.key = JWT_SECRET ∧ t.iss = some "luna-api" ∧
    t.aud = some "luna-frontend" ∧ now < t.exp

/-- A token that `verifyRefreshToken` accepts at time `now`. -/
def refreshTokenValid (tk : Jwt) (now : Nat) : Prop :=
  ∃ t, tk = .signed t ∧ t.key = JWT_REFRESH_SECRET ∧ t.iss = some "luna-api" ∧
    t.aud = some "luna-frontend" ∧ now < t.exp

lemma jwtVerify_isSome_iff (tk : Jwt) (secret issClaim audClaim : String) (now : Nat) :
    (jwtVerify tk secret issClaim audClaim now).isSome = true ↔
      ∃ t, tk = .signed t ∧ t.key = secret ∧ t.iss = some issClaim ∧
        t.aud = some audClaim ∧ now < t.exp := by
  cases tk with
  | malformed raw => simp [jwtVerify]
  | signed t =>
    simp only [jwtVerify]
    split_ifs with h
    · simp only [Option.isSome_some, true_iff]
      exact ⟨t, rfl, h.1, h.2.1, h.2.2.1, h.2.2.2⟩
    · simp only [Option.isSome_none, Bool.false_eq_true, false_iff]
      rintro ⟨t', ht', h1, h2, h3, h4⟩
      cases ht'
      exact h ⟨h1, h2, h3, h4⟩

lemma jwtVerify_eq_none_iff (tk : Jwt) (secret issClaim audClaim : String) (now : Nat) :
    jwtVerify tk secret issClaim audClaim now = none ↔
      ¬ ∃ t, tk = .signed t ∧ t.key = secret ∧ t.iss = some issClaim ∧
        t.aud = some audClaim ∧ now < t.exp := by
  rw [← jwtVerify_isSome_iff tk secret issClaim audClaim now]
  cases hv : jwtVerify tk secret issClaim audClaim now <;> simp

/-- C1: for every identity claim, the token produced by
`generateAccessToken` is rejected by `verifyAccessToken` at every
verification time: signing passes no issuer/audience option, so the
token carries no `iss`/`aud` claim, while verification demands issuer
`luna-api` and audience `luna-frontend`.  The claimed issue/verify
round-trip therefore fails on every input, and every access token the
service issues is rejected by its own middleware. -/
theorem accessToken_roundTrip_always_rejected :
    ∀ (userId email : String) (issueTime verifyTime : Nat),
      verifyAccessToken (generateAccessToken userId email issueTime) verifyTime = none := by
  intro userId email t1 t2
  simp [verifyAccessToken, generateAccessToken, jwtSign, jwtVerify]

/-- C2: a token produced by `generateAccessToken` is rejected by
`verifyRefreshToken` and a token produced by `generateRefreshToken` is
rejected by `verifyAccessToken`; the two kinds are signed with distinct
secrets (the defaults of `JWT_SECRET` and `JWT_REFRESH_SECRET` differ). -/
theorem crossKind_tokens_rejected :
    ∀ (userId email : String) (issueTime verifyTime : Nat),
      verifyRefreshToken (generateAccessToken userId email issueTime) verifyTime = none ∧
      verifyAccessToken (generateRefreshToken userId email issueTime) verifyTime = none ∧
      JWT_SECRET ≠ JWT_REFRESH_SECRET := by
  intro userId email t1 t2
  refine ⟨?_, ?_, by decide⟩
  · simp [verifyRefreshToken, generateAccessToken, jwtSign, jwtVerify]
  · simp [verifyAccessToken, generateRefreshToken, jwtSign, jwtVerify]

/-- C3: both verifiers are total functions into `Option` — they return a
payload exactly on a valid token and the single value `none` on every
failure cause (malformed structure, wrong key, missing or wrong
issuer/audience, elapsed expiry), so no failure cause is distinguishable
from another; the check is a pure function of the token and the clock,
consulting no user store. -/
theorem verify_uniform_failure :
    ∀ (tk : Jwt) (now : Nat),
      (verifyAccessToken tk now = none ↔ ¬ accessTokenValid tk now) ∧
      (verifyRefreshToken tk now = none ↔ ¬ refreshTokenValid tk now) ∧
      ((verifyAccessToken tk now).isSome = true ↔ accessTokenValid tk now) ∧
      ((verifyRefreshToken tk now).isSome = true ↔ refreshTokenValid tk now) := by
  intro tk now
  exact ⟨jwtVerify_eq_none_iff tk JWT_SECRET "luna-api" "luna-frontend" now,
         jwtVerify_eq_none_iff tk JWT_REFRESH_SECRET "luna-api" "luna-frontend" now,
         jwtVerify_isSome_iff tk JWT_SECRET "luna-api" "luna-frontend" now,
         jwtVerify_isSome_iff tk JWT_REFRESH_SECRET "luna-api" "luna-frontend" now⟩

/-- C10: the user object placed in the register, login and `/me`
responses and in the `getAllUsers` result does not depend on the stored
bcrypt credential — rewriting any user's `password` field leaves every
one of these responses unchanged, so the hash is never exposed through
these interfaces (the emitted record type has no password field at
all). -/
theorem password_never_in_responses :
    ∀ (u : User) (pw : String) (rememberMe : Bool) (now : Nat)
      (us : List User) (f : User → String),
      registerAuthResponse { u with password := pw } now = registerAuthResponse u now ∧
      loginAuthResponse { u with password := pw } rememberMe now =
        loginAuthResponse u rememberMe now ∧
      meResponseUser { u with password := pw } = meResponseUser u ∧
      getAllUsers (us.map fun v => { v with password := f v }) = getAllUsers us := by
  intro u pw rememberMe now us f
  refine ⟨rfl, rfl, rfl, ?_⟩
  induction us with
  | nil => rfl
  | cons v vs ih =>
    simp only [List.map_cons, getAllUsers] at ih ⊢
    rw [ih]
    rfl

/-- C4: extraction succeeds with the token part exactly when the header
is present and splits on spaces into precisely two parts whose first is
`Bearer`; every other input yields `null`, including the four
documented examples. -/
theorem extractTokenFromHeader_spec :
    ∀ (h : Option String) (t : String),
      (extractTokenFromHeader h = some t ↔
        ∃ s, h = some s ∧ splitParts s = ["Bearer", t]) ∧
      extractTokenFromHeader (some "Bearer abc.def.ghi") = some "abc.def.ghi" ∧
      extractTokenFromHeader (some "Basic xyz") = none ∧
      extractTokenFromHeader none = none ∧
      extractTokenFromHeader (some "Bearer") = none := by
  intro h t
  refine ⟨?_, by decide, by decide, rfl, by decide⟩
  cases h with
  | none => simp [extractTokenFromHeader]
  | some s =>
    by_cases hs : s = ""
    · subst hs
      have hsplit : splitParts "" = [""] := rfl
      simp [extractTokenFromHeader, hsplit]
    · simp only [extractTokenFromHeader, if_neg hs, Option.some.injEq,
        exists_eq_left']
      cases hsp : splitParts s with
      | nil => simp
      | cons a tl =>
        cases tl with
        | nil => simp
        | cons b tl2 =>
          cases tl2 with
          | nil =>
            by_cases hb : a = "Bearer"
            · subst hb
              simp
            · simp [hb, Ne.symm hb]
          | cons c tl3 => simp

/-- C8: the five password rules are checked independently and all
violation messages are returned together; the result is valid exactly
when the password has length at least 8 and contains an uppercase
letter, a lowercase letter, a digit and a character of the fixed
punctuation set; `"weak"` fails with exactly the four non-lowercase
violations and `"Str0ng!Pass"` is valid with no violations. -/
theorem validatePassword_spec :
    ∀ (p : String),
      ((validatePassword p).isValid = true ↔
        (8 ≤ p.length ∧ p.data.any Char.isUpper = true ∧ p.data.any Char.isLower = true ∧
         p.data.any Char.isDigit = true ∧
         p.data.any (fun c => specialChars.contains c) = true)) ∧
      ("Password must be at least 8 characters long" ∈ (validatePassword p).errors ↔
        p.length < 8) ∧
      ("Password must contain at least one uppercase letter" ∈ (validatePassword p).errors ↔
        ¬ p.data.any Char.isUpper = true) ∧
      ("Password must contain at least one lowercase letter" ∈ (validatePassword p).errors ↔
        ¬ p.data.any Char.isLower = true) ∧
      ("Password must contain at least one number" ∈ (validatePassword p).errors ↔
        ¬ p.data.any Char.isDigit = true) ∧
      ("Password must contain at least one special character" ∈ (validatePassword p).errors ↔
        ¬ p.data.any (fun c => specialChars.contains c) = true) ∧
      validatePassword "weak" =
        { isValid := false,
          errors := ["Password must be at least 8 characters long",
                     "Password must contain at least one uppercase letter",
                     "Password must contain at least one number",
                     "Password must contain at least one special character"] } ∧
      validatePassword "Str0ng!Pass" = { isValid := true, errors := [] } := by
  intro p
  refine ⟨?_, ?_, ?_, ?_, ?_, ?_, by decide, by decide⟩ <;>
  · by_cases h1 : p.length < 8 <;>
    by_cases h2 : p.data.any Char.isUpper = true <;>
    by_cases h3 : p.data.any Char.isLower = true <;>
    by_cases h4 : p.data.any Char.isDigit = true <;>
    by_cases h5 : p.data.any (fun c => specialChars.contains c) = true <;>
    simp [validatePassword, h1, h2, h3, h4, h5, Nat.not_lt.mp]

/-- A lifetime spec matching the regex grammar of `getTokenExpiration`:
an integer magnitude (a non-empty digit string) followed by a single
unit character `d`, `h` or `m`. -/
def matchesExpiryGrammar (s : String) : Prop :=
  ∃ ds u, s.data = ds ++ [u] ∧ ds ≠ [] ∧ (∀ c ∈ ds, c.isDigit = true) ∧
    (u = 'd' ∨ u = 'h' ∨ u = 'm')

lemma parseExpiresIn_eq_none_iff (s : String) :
    parseExpiresIn s = none ↔ ¬ matchesExpiryGrammar s := by
  rcases hrev : s.data.reverse with - | ⟨u, rds⟩
  · have hd : s.data = [] := by simpa using congrArg List.reverse hrev
    constructor
    · rintro - ⟨ds, u, heq, hne, -, -⟩
      rw [hd] at heq
      simp at heq
    · rintro -
      unfold parseExpiresIn
      rw [hrev]
  · have hd : s.data = rds.reverse ++ [u] := by simpa using congrArg List.reverse hrev
    have hparse : parseExpiresIn s =
        (if rds.reverse ≠ [] ∧ rds.reverse.all Char.isDigit = true ∧
            (u = 'd' ∨ u = 'h' ∨ u = 'm') then
          some (digitsToNat rds.reverse, u)
        else none) := by
      unfold parseExpiresIn
      rw [hrev]
    rw [hparse]
    unfold matchesExpiryGrammar
    split_ifs with hc
    · simp only [reduceCtorEq, false_iff, not_not]
      exact ⟨rds.reverse, u, hd, hc.1,
        fun c hcmem => List.all_eq_true.mp hc.2.1 c hcmem, hc.2.2⟩
    · simp only [true_iff]
      rintro ⟨ds, u', heq, hne, hdig, hu⟩
      rw [hd] at heq
      obtain ⟨hds, hu2⟩ := List.append_inj' heq rfl
      have huu : u = u' := by injection hu2
      subst hds
      exact hc ⟨hne, List.all_eq_true.mpr hdig, huu ▸ hu⟩

/-- C9: the lifetime parser returns now plus the encoded offset for
specs of the grammar integer-plus-unit, and for every spec outside the
grammar it falls back to now plus seven days without error. -/
theorem getTokenExpiration_spec :
    ∀ (now : Nat) (s : String),
      getTokenExpiration now "7d" = now + 7 * 24 * 60 * 60 ∧
      getTokenExpiration now "1h" = now + 60 * 60 ∧
      getTokenExpiration now "30m" = now + 30 * 60 ∧
      (¬ matchesExpiryGrammar s → getTokenExpiration now s = now + 7 * 24 * 60 * 60) ∧
      getTokenExpiration now "garbage" = now + 7 * 24 * 60 * 60 := by
  intro now s
  refine ⟨rfl, rfl, rfl, ?_, rfl⟩
  intro hg
  have hnone : parseExpiresIn s = none := (parseExpiresIn_eq_none_iff s).mpr hg
  simp [getTokenExpiration, hnone]

/-- Witness for C9 at the concrete unparsable spec of the claim. -/
theorem getTokenExpiration_spec_witness :
    ¬ matchesExpiryGrammar "garbage" ∧
    getTokenExpiration 0 "garbage" = 0 + 7 * 24 * 60 * 60 := by
  have hng : ¬ matchesExpiryGrammar "garbage" :=
    (parseExpiresIn_eq_none_iff "garbage").mp (by decide)
  exact ⟨hng, (getTokenExpiration_spec 0 "garbage").2.2.2.1 hng⟩

lemma mapGet_mapSet_self (m : RateMap) (ip : String) (v : RateEntry) :
    mapGet (mapSet m ip v) ip = some v := by
  induction m with
  | nil => simp [mapSet, mapGet]
  | cons kv rest ih =>
    obtain ⟨k, w⟩ := kv
    by_cases hk : k = ip
    · simp [mapSet, mapGet, hk]
    · simp [mapSet, mapGet, hk, ih]

lemma rateLimit_fst (m : RateMap) (ip : String) (now maxRequests windowMs : Nat) :
    (rateLimit m ip now maxRequests windowMs).1 =
      mapSet m ip (nextEntry (mapGet m ip) now windowMs) := by
  simp only [rateLimit]
  split_ifs <;> rfl

lemma nextEntry_resetTime_le (old : Option RateEntry) (now windowMs : Nat)
    (hb : ∀ e, old = some e → e.resetTime ≤ now + windowMs) :
    (nextEntry old now windowMs).resetTime ≤ now + windowMs := by
  cases old with
  | none => simp [nextEntry]
  | some info =>
    simp only [nextEntry]
    split_ifs with h
    · simp
    · exact hb info rfl

/-- C5 counterexample: with limit 1 and a 1000 ms window, the second
request from the same address at time 0 is answered 429 with a
`retryAfter` hint, but the reply carries none of the `X-RateLimit`
headers — the 429 branch returns before the header-setting lines run. -/
theorem rateLimit_429_reply_has_no_headers :
    (rateLimit (rateLimit [] "1.2.3.4" 0 1 1000).1 "1.2.3.4" 0 1 1000).2 =
      { status := some 429, retryAfter := some 1, headers := [] } := by decide

/-- C5 amended: a request that exceeds the limit within the live window
is answered 429 with a whole-second `retryAfter` no larger than the
window length, but receives no `X-RateLimit` headers; only a request
within the limit receives the `X-RateLimit-Limit`,
`X-RateLimit-Remaining` and `X-RateLimit-Reset` (ceiling unix seconds)
headers.  The stored reset time is assumed not to lie beyond
`now + windowMs`, which the reinitialization rule maintains whenever one
window length is used throughout. -/
theorem rateLimit_spec_amended :
    ∀ (m : RateMap) (ip : String) (now maxRequests windowMs : Nat),
      (∀ e, mapGet m ip = some e → e.resetTime ≤ now + windowMs) →
      (maxRequests < (nextEntry (mapGet m ip) now windowMs).count →
        (rateLimit m ip now maxRequests windowMs).2.status = some 429 ∧
        (rateLimit m ip now maxRequests windowMs).2.headers = [] ∧
        ∃ k, (rateLimit m ip now maxRequests windowMs).2.retryAfter = some k ∧
          k ≤ (windowMs + 999) / 1000) ∧
      ((nextEntry (mapGet m ip) now windowMs).count ≤ maxRequests →
        (rateLimit m ip now maxRequests windowMs).2 =
          { status := none, retryAfter := none,
            headers := [("X-RateLimit-Limit", maxRequests),
                        ("X-RateLimit-Remaining",
                          maxRequests - (nextEntry (mapGet m ip) now windowMs).count),
                        ("X-RateLimit-Reset",
                          ((nextEntry (mapGet m ip) now windowMs).resetTime + 999) / 1000)] }) := by
  intro m ip now maxRequests windowMs hb
  constructor
  · intro hover
    simp only [rateLimit]
    rw [if_pos hover]
    refine ⟨rfl, rfl,
      ((nextEntry (mapGet m ip) now windowMs).resetTime - now + 999) / 1000, rfl, ?_⟩
    have hle : (nextEntry (mapGet m ip) now windowMs).resetTime ≤ now + windowMs :=
      nextEntry_resetTime_le _ now windowMs hb
    exact Nat.div_le_div_right (by omega)
  · intro hunder
    simp only [rateLimit]
    rw [if_neg (Nat.not_lt.mpr hunder)]

/-- Witness for C5 amended: the empty map satisfies the reset-time
bound, and a request with limit 0 is immediately answered 429. -/
theorem rateLimit_spec_amended_witness :
    (∀ e, mapGet ([] : RateMap) "A" = some e → e.resetTime ≤ 0 + 1000) ∧
    (0 < (nextEntry (mapGet ([] : RateMap) "A") 0 1000).count) ∧
    (rateLimit ([] : RateMap) "A" 0 0 1000).2.status = some 429 := by
  have hb : ∀ e, mapGet ([] : RateMap) "A" = some e → e.resetTime ≤ 0 + 1000 := by
    intro e he
    simp [mapGet] at he
  exact ⟨hb, by decide, ((rateLimit_spec_amended [] "A" 0 0 1000 hb).1 (by decide)).1⟩

/-- C6: the counter never carries across windows — a missing entry, or a
current time strictly past the stored reset time, reinitializes the
entry to count 1 with reset time `now + windowMs`, while within the live
window the count increments by exactly one with the reset time kept; the
updated entry is what the map stores afterwards.  Concretely, with
max 3 and a 1000 ms window, three requests pass, the fourth is answered
429 with `retryAfter` 1 ≤ 1, and a request after the window passes with
the counter reset to 1. -/
theorem rateLimit_window_reset :
    ∀ (m : RateMap) (ip : String) (now maxRequests windowMs : Nat),
      (mapGet m ip = none →
        nextEntry (mapGet m ip) now windowMs =
          { count := 1, resetTime := now + windowMs }) ∧
      (∀ e, mapGet m ip = some e → e.resetTime < now →
        nextEntry (mapGet m ip) now windowMs =
          { count := 1, resetTime := now + windowMs }) ∧
      (∀ e, mapGet m ip = some e → now ≤ e.resetTime →
        nextEntry (mapGet m ip) now windowMs =
          { count := e.count + 1, resetTime := e.resetTime }) ∧
      mapGet ((rateLimit m ip now maxRequests windowMs).1) ip =
        some (nextEntry (mapGet m ip) now windowMs) ∧
      ((rateLimit [] "A" 0 3 1000).2.status = none ∧
        (rateLimit (rateLimit [] "A" 0 3 1000).1 "A" 100 3 1000).2.status = none ∧
        (rateLimit (rateLimit (rateLimit [] "A" 0 3 1000).1 "A" 100 3 1000).1
            "A" 200 3 1000).2.status = none ∧
        (rateLimit (rateLimit (rateLimit (rateLimit [] "A" 0 3 1000).1 "A" 100 3 1000).1
            "A" 200 3 1000).1 "A" 300 3 1000).2 =
          { status := some 429, retryAfter := some 1, headers := [] } ∧
        (rateLimit (rateLimit (rateLimit (rateLimit (rateLimit [] "A" 0 3 1000).1
            "A" 100 3 1000).1 "A" 200 3 1000).1 "A" 300 3 1000).1
            "A" 1001 3 1000).2.status = none ∧
        mapGet (rateLimit (rateLimit (rateLimit (rateLimit (rateLimit [] "A" 0 3 1000).1
            "A" 100 3 1000).1 "A" 200 3 1000).1 "A" 300 3 1000).1
            "A" 1001 3 1000).1 "A" = some { count := 1, resetTime := 2001 }) := by
  intro m ip now maxRequests windowMs
  refine ⟨?_, ?_, ?_, ?_, by decide⟩
  · intro hnone
    rw [hnone]
    rfl
  · intro e he hlt
    rw [he]
    simp [nextEntry, hlt]
  · intro e he hge
    rw [he]
    simp [nextEntry, Nat.not_lt.mpr hge]
  · rw [rateLimit_fst]
    exact mapGet_mapSet_self m ip _

/-- Witness for C6: the first request from an unseen address
reinitializes its entry to count 1 with reset time `now + windowMs`. -/
theorem rateLimit_window_reset_witness :
    mapGet ([] : RateMap) "A" = none ∧
    nextEntry (mapGet ([] : RateMap) "A") 0 1000 = { count := 1, resetTime := 1000 } :=
  ⟨rfl, (rateLimit_window_reset [] "A" 0 3 1000).1 rfl⟩

/-- C7: the middleware runs extraction, then access-token verification,
then user lookup; the first failing step is answered 401 with its code —
`MISSING_TOKEN` when no usable token is extracted (the falsy guard also
treats an extracted empty string as missing), `INVALID_TOKEN` when
verification returns null, `USER_NOT_FOUND` when the lookup finds no
user, `AUTH_FAILED` when the lookup throws — and only on full success is
the decoded identity attached with no error sent. -/
theorem authenticateToken_cases :
    ∀ (decode : String → Jwt) (lookupUser : String → Except Unit (Option User))
      (now : Nat) (h : Option String),
      (extractTokenFromHeader h = none →
        authenticateToken decode lookupUser now h =
          .err 401 "Access token is required" "MISSING_TOKEN") ∧
      (extractTokenFromHeader h = some "" →
        authenticateToken decode lookupUser now h =
          .err 401 "Access token is required" "MISSING_TOKEN") ∧
      (∀ tok, extractTokenFromHeader h = some tok → tok ≠ "" →
        verifyAccessToken (decode tok) now = none →
        authenticateToken decode lookupUser now h =
          .err 401 "Invalid or expired access token" "INVALID_TOKEN") ∧
      (∀ tok p, extractTokenFromHeader h = some tok → tok ≠ "" →
        verifyAccessToken (decode tok) now = some p →
        lookupUser p.userId = .error () →
        authenticateToken decode lookupUser now h =
          .err 401 "Authentication failed" "AUTH_FAILED") ∧
      (∀ tok p, extractTokenFromHeader h = some tok → tok ≠ "" →
        verifyAccessToken (decode tok) now = some p →
        lookupUser p.userId = .ok none →
        authenticateToken decode lookupUser now h =
          .err 401 "User not found" "USER_NOT_FOUND") ∧
      (∀ tok p u, extractTokenFromHeader h = some tok → tok ≠ "" →
        verifyAccessToken (decode tok) now = some p →
        lookupUser p.userId = .ok (some u) →
        authenticateToken decode lookupUser now h = .ok p.userId p.email) := by
  intro decode lookupUser now h
  refine ⟨?_, ?_, ?_, ?_, ?_, ?_⟩
  · intro h1
    simp [authenticateToken, h1]
  · intro h1
    simp [authenticateToken, h1]
  · intro tok h1 h2 h3
    simp [authenticateToken, h1, h2, h3]
  · intro tok p h1 h2 h3 h4
    simp [authenticateToken, h1, h2, h3, h4]
  · intro tok p h1 h2 h3 h4
    simp [authenticateToken, h1, h2, h3, h4]
  · intro tok p u h1 h2 h3 h4
    simp [authenticateToken, h1, h2, h3, h4]

/-- Witness for C7: a request with no Authorization header is answered
401 `MISSING_TOKEN`. -/
theorem authenticateToken_cases_witness :
    extractTokenFromHeader none = none ∧
    authenticateToken (fun s => Jwt.malformed s) (fun _ => Except.ok none) 0 none =
      AuthOutcome.err 401 "Access token is required" "MISSING_TOKEN" :=
  ⟨rfl, (authenticateToken_cases (fun s => Jwt.malformed s)
    (fun _ => Except.ok none) 0 none).1 rfl⟩
